import Mathlib

/-!
Verification development for the PDF-Extraction-API repository.

Shallow embedding of the core subsystems:
  * `src/api/performance_optimizer.py` : `ProgressTracker`, `PerformanceOptimizer`,
    the module-level `progress_store` / `active_tasks` registries and
    `get_task_progress` / `cleanup_old_tasks`.
  * `src/api/pdf_extractor.py` : the parallel page fan-out of `_extract_text`
    and `_extract_structured` together with the per-page operations.
  * `src/api/ocr_service.py` : `OCRService.process_pdf` DPI selection, cache key,
    and the per-image OCR step `_process_image`.

Conventions: Python floats that hold wall-clock times and derived quantities are
modelled as exact rationals; Python `round(x, n)` is modelled as exact
round-half-to-even on rationals; a Python function that can raise is modelled
as `Except String`; a Python dict whose keys may be absent is modelled as a
structure of `Option` fields (a `none` field means the key is absent).
-/

namespace PdfApi

/-- Round half to even on the integers, applied to a rational: the rounding mode
of Python `round`. -/
def roundHalfEven (q : ℚ) : ℤ :=
  if q - ⌊q⌋ = 1/2 then (if Even ⌊q⌋ then ⌊q⌋ else ⌊q⌋ + 1) else ⌊q + 1/2⌋

/-- Python `round(q, ndigits)` on exact rationals. -/
def pyRound (ndigits : ℕ) (q : ℚ) : ℚ :=
  (roundHalfEven (q * 10 ^ ndigits) : ℚ) / 10 ^ ndigits

/-! ## Performance optimizer (`PerformanceOptimizer`, `performance_optimizer.py`) -/

/-- The dictionary returned by `PerformanceOptimizer.analyze_document`. -/
structure OptimizationParams where
  maxWorkers : ℤ
  optimalDpi : ℕ
  preprocessImages : Bool
  chunkSize : ℕ
deriving DecidableEq

/-- `PerformanceOptimizer._calculate_optimal_workers`.  `hasImages` is accepted
but unused, exactly as in the source. -/
def calculateOptimalWorkers (baseWorkers : ℤ) (pageCount : ℕ) (avgPageSize : ℚ)
    (hasImages : Bool) (isScanned : Bool) : ℤ :=
  let w0 := baseWorkers
  let w1 :=
    if pageCount < 5 then min 2 baseWorkers
    else if pageCount > 50 then min (baseWorkers + 2) 8
    else w0
  let w2 := if isScanned then max w1 (min (baseWorkers + 1) 6) else w1
  if avgPageSize > 1024 * 1024 then max 2 (w2 - 1) else w2

/-- `PerformanceOptimizer._calculate_optimal_dpi`.  `isScanned` and `hasImages`
are accepted but unused, exactly as in the source. -/
def calculateOptimalDpi (isScanned : Bool) (hasImages : Bool) (avgPageSize : ℚ) : ℕ :=
  let dpi0 := 300
  let dpi1 := if avgPageSize > 2 * 1024 * 1024 then 200 else dpi0
  if avgPageSize > 5 * 1024 * 1024 then 150 else dpi1

/-- `PerformanceOptimizer._should_preprocess_images`. -/
def shouldPreprocessImages (isScanned : Bool) (avgPageSize : ℚ) : Bool :=
  if isScanned then
    if avgPageSize > 4 * 1024 * 1024 then false else true
  else decide (avgPageSize < 2 * 1024 * 1024)

/-- `PerformanceOptimizer._calculate_chunk_size`. -/
def calculateChunkSize (pageCount : ℕ) : ℕ :=
  if pageCount < 20 then pageCount
  else if pageCount < 50 then 10
  else if pageCount < 100 then 20
  else 30

/-- `PerformanceOptimizer.analyze_document`: computes the average page size and
assembles the four sub-decisions.  Logging through the tracker is observational
only and does not feed into the returned values. -/
def analyzeDocument (baseMaxWorkers : ℤ) (pageCount : ℕ) (fileSizeBytes : ℕ)
    (hasImages : Bool) (hasTables : Bool) (isScanned : Bool) : OptimizationParams :=
  let avgPageSize : ℚ := (fileSizeBytes : ℚ) / ((max 1 pageCount : ℕ) : ℚ)
  { maxWorkers := calculateOptimalWorkers baseMaxWorkers pageCount avgPageSize hasImages isScanned
    optimalDpi := calculateOptimalDpi isScanned hasImages avgPageSize
    preprocessImages := shouldPreprocessImages isScanned avgPageSize
    chunkSize := calculateChunkSize pageCount }

/-- The worker-count rule chain as the specification words it (claim C7): start
from base_workers; if page_count below 5 set it to min(2, base_workers), else if
page_count above 50 set it to min(base_workers + 2, 8); if is_scanned raise it
to at least min(base_workers + 1, 6); if file_size_bytes / max(1, page_count)
exceeds 1 MiB, subtract 1 with a floor of 2. -/
def specWorkerRule (baseWorkers : ℤ) (pageCount : ℕ) (fileSizeBytes : ℕ)
    (isScanned : Bool) : ℤ :=
  let start := baseWorkers
  let afterPageRule :=
    if pageCount < 5 then min 2 baseWorkers
    else if pageCount > 50 then min (baseWorkers + 2) 8
    else start
  let afterScanRule :=
    if isScanned then max afterPageRule (min (baseWorkers + 1) 6) else afterPageRule
  if ((fileSizeBytes : ℚ) / ((max 1 pageCount : ℕ) : ℚ)) > 1024 * 1024 then
    max 2 (afterScanRule - 1)
  else afterScanRule

/-- The chunk-size value table as the specification words it (claim C8):
page_count itself if below 20, 10 if below 50, 20 if below 100, else 30. -/
def specChunkRule (pageCount : ℕ) : ℕ :=
  if pageCount < 20 then pageCount
  else if pageCount < 50 then 10
  else if pageCount < 100 then 20
  else 30

/-! ## Progress tracker and task registry (`ProgressTracker`, `progress_store`,
`active_tasks`, `get_task_progress`, `cleanup_old_tasks`) -/

/-- One entry of `optimization_logs`. -/
structure LogEntry where
  time : ℚ
  message : String
  logType : String
deriving DecidableEq

/-- Opaque stand-in for the extraction result payload stored by
`set_result_data`. -/
abbrev ResultData := String

/-- The Python dict stored in `progress_store` for one task.  Every field is an
`Option`: `none` models an absent dict key.  `lastUpdateTime` is listed because
`cleanup_old_tasks` reads the key `last_update_time` from this dict; the source
never writes that key into the dict, so the field stays `none` in every
snapshot the tracker produces. -/
structure Snapshot where
  taskId : Option String
  currentStep : Option ℤ
  totalSteps : Option ℤ
  percentage : Option ℚ
  status : Option String
  stepDescription : Option String
  message : Option (Option String)
  elapsedTime : Option ℚ
  estimatedTimeRemaining : Option (Option ℚ)
  performanceStats : Option (List (String × ℚ))
  optimizationLogs : Option (List LogEntry)
  resultData : Option ResultData
  lastUpdateTime : Option ℚ
deriving DecidableEq

/-- The empty Python dict `{}` seen as a snapshot: every key absent. -/
def emptySnapshot : Snapshot :=
  ⟨none, none, none, none, none, none, none, none, none, none, none, none, none⟩

/-- The module-level dict `progress_store`, as an association list. -/
abbrev Store := List (String × Snapshot)

/-- Python `progress_store.get(task_id)` (no default). -/
def storeGet (s : Store) (k : String) : Option Snapshot :=
  (s.find? (fun e => e.1 == k)).map Prod.snd

/-- Python `del progress_store[task_id]`. -/
def storeErase (s : Store) (k : String) : Store :=
  s.filter (fun e => !(e.1 == k))

/-- Python `progress_store[task_id] = v`. -/
def storeSet (s : Store) (k : String) (v : Snapshot) : Store :=
  (k, v) :: storeErase s k

/-- The two module-level registries `progress_store` and `active_tasks`. -/
structure Registry where
  progressStore : Store
  activeTasks : List String
deriving DecidableEq

/-- The attribute state of a `ProgressTracker` object. -/
structure ProgressTracker where
  taskId : String
  totalSteps : ℤ
  currentStep : ℤ
  stepDescriptions : List (ℤ × String)
  status : String
  startTime : ℚ
  lastUpdateTime : ℚ
  estimatedTimeRemaining : Option ℚ
  performanceStats : List (String × ℚ)
  optimizationLogs : List LogEntry
deriving DecidableEq

/-- `ProgressTracker.__init__(task_id, total_steps, step_descriptions)` at wall
time `now`.  The registration line is
`progress_store[task_id] = self.get_progress_data()`, and `get_progress_data`
returns `progress_store.get(self.task_id, {})` — a read of the store that
happens before anything was written for this id, so a fresh id registers the
empty dict. -/
def initTracker (taskId : String) (totalSteps : ℤ) (stepDescriptions : List (ℤ × String))
    (now : ℚ) (reg : Registry) : ProgressTracker × Registry :=
  let t : ProgressTracker :=
    { taskId := taskId
      totalSteps := totalSteps
      currentStep := 0
      stepDescriptions := stepDescriptions
      status := "initializing"
      startTime := now
      lastUpdateTime := now
      estimatedTimeRemaining := none
      performanceStats := []
      optimizationLogs := [] }
  let registered := (storeGet reg.progressStore taskId).getD emptySnapshot
  (t, { progressStore := storeSet reg.progressStore taskId registered
        activeTasks := taskId :: reg.activeTasks })

/-- `ProgressTracker.get_progress_data`. -/
def getProgressData (t : ProgressTracker) (reg : Registry) : Snapshot :=
  (storeGet reg.progressStore t.taskId).getD emptySnapshot

/-- `ProgressTracker.update(current_step, status, message)` at wall time `now`.
Mirrors the source line by line: clamp with `min` only (no lower clamp), the
estimate is recomputed only when `0 < current_step < total_steps` and otherwise
keeps its previous value, the snapshot dict is rebuilt in full, and a
previously stored `result_data` is carried over.  Returns the mutated tracker,
the mutated registry and the returned progress-data dict.  (With
`total_steps = 0` the Python source raises `ZeroDivisionError` when computing
the percentage; the rational division below instead yields the junk value 0,
so theorems about `update` assume a positive `total_steps` where it matters.) -/
def updateTracker (t : ProgressTracker) (reg : Registry) (currentStep : ℤ)
    (status : String) (message : Option String) (now : ℚ) :
    ProgressTracker × Registry × Snapshot :=
  let cs : ℤ := min currentStep t.totalSteps
  let elapsedTime : ℚ := now - t.startTime
  let etr : Option ℚ :=
    if 0 < cs ∧ cs < t.totalSteps then
      some ((elapsedTime / (cs : ℚ)) * ((t.totalSteps : ℚ) - (cs : ℚ)))
    else t.estimatedTimeRemaining
  let stepDescription : String :=
    match t.stepDescriptions.lookup cs with
    | some d => d
    | none => "Step " ++ toString cs ++ " of " ++ toString t.totalSteps
  let percentage : ℚ := pyRound 1 (((cs : ℚ) / (t.totalSteps : ℚ)) * 100)
  let previous := (storeGet reg.progressStore t.taskId).getD emptySnapshot
  let snap : Snapshot :=
    { taskId := some t.taskId
      currentStep := some cs
      totalSteps := some t.totalSteps
      percentage := some percentage
      status := some status
      stepDescription := some stepDescription
      message := some message
      elapsedTime := some (pyRound 2 elapsedTime)
      estimatedTimeRemaining := some (etr.map (pyRound 2))
      performanceStats := some t.performanceStats
      optimizationLogs := some t.optimizationLogs
      resultData := previous.resultData
      lastUpdateTime := none }
  let t2 : ProgressTracker :=
    { t with currentStep := cs, status := status, lastUpdateTime := now,
             estimatedTimeRemaining := etr }
  (t2, { reg with progressStore := storeSet reg.progressStore t.taskId snap }, snap)

/-- After `update` stores the snapshot, a terminal status schedules (via
`threading.Timer(300, ...)`) removal of the id from `active_tasks` 300
time-units later; this predicate is that trigger condition. -/
def schedulesActiveRemoval (status : String) : Bool :=
  status == "completed" || status == "error"

/-- `ProgressTracker.complete(message)`. -/
def completeTracker (t : ProgressTracker) (reg : Registry) (message : Option String)
    (now : ℚ) : ProgressTracker × Registry × Snapshot :=
  updateTracker t reg t.totalSteps "completed" message now

/-- `ProgressTracker.error(message)`. -/
def errorTracker (t : ProgressTracker) (reg : Registry) (message : String)
    (now : ℚ) : ProgressTracker × Registry × Snapshot :=
  updateTracker t reg t.currentStep "error" (some message) now

/-- The dict returned by `get_task_progress` for an unknown id. -/
def notFoundSnapshot (taskId : String) : Snapshot :=
  { emptySnapshot with
      taskId := some taskId
      status := some "not_found"
      message := some (some "Task not found") }

/-- Module-level `get_task_progress(task_id)`. -/
def getTaskProgress (reg : Registry) (taskId : String) : Snapshot :=
  (storeGet reg.progressStore taskId).getD (notFoundSnapshot taskId)

/-- The removal condition of `cleanup_old_tasks` for one stored dict:
`data.get("status") in ("completed", "error") and
current_time - data.get("last_update_time", 0) > 3600`. -/
def shouldRemoveTask (now : ℚ) (d : Snapshot) : Bool :=
  (d.status == some "completed" || d.status == some "error")
    && decide (now - (d.lastUpdateTime.getD 0) > 3600)

/-- Module-level `cleanup_old_tasks()` run at wall time `now`: every stored
task meeting the removal condition is deleted from `progress_store` and from
`active_tasks`. -/
def cleanupOldTasks (reg : Registry) (now : ℚ) : Registry :=
  { progressStore := reg.progressStore.filter (fun e => !(shouldRemoveTask now e.2))
    activeTasks := reg.activeTasks.filter (fun tid =>
      match storeGet reg.progressStore tid with
      | some d => !(shouldRemoveTask now d)
      | none => true) }

/-! ## Parallel page processor (`PDFExtractor`, `pdf_extractor.py`)

A pdfplumber page is opaque; what the extractor calls on it is
`page.extract_text()` (which may raise, or return `None`, or return a string)
and `page.extract_tables()` (which may raise or return a list of tables).  A
`Page` records the outcome of those two calls. -/

/-- Boolean success test for `Except`. -/
def isOkE : Except ε α → Bool
  | .ok _ => true
  | .error _ => false

instance [DecidableEq ε] [DecidableEq α] : DecidableEq (Except ε α) := fun x y =>
  match x, y with
  | .ok a, .ok b =>
      if h : a = b then isTrue (by rw [h])
      else isFalse (fun hc => h (Except.ok.inj hc))
  | .error a, .error b =>
      if h : a = b then isTrue (by rw [h])
      else isFalse (fun hc => h (Except.error.inj hc))
  | .ok _, .error _ => isFalse (fun hc => Except.noConfusion hc)
  | .error _, .ok _ => isFalse (fun hc => Except.noConfusion hc)

/-- A table as pdfplumber returns it: rows of cells, a cell possibly `None`. -/
abbrev RawTable := List (List (Option String))

/-- Opaque page handle: outcomes of the two pdfplumber calls the extractor
makes.  `Except.error` models the call raising. -/
structure Page where
  extractText : Except String (Option String)
  extractTables : Except String (List RawTable)
deriving DecidableEq

/-- One entry of the text-extraction result list:
`{"page": i + 1, "content": text}`. -/
structure TextPage where
  page : ℕ
  content : String
deriving DecidableEq

/-- A structured element: heading or paragraph. -/
inductive Element where
  | heading (content : String)
  | paragraph (content : String)
deriving DecidableEq

/-- One entry of the structured-extraction result list. -/
structure StructuredPage where
  page : ℕ
  elements : List Element
  tables : List (List (List String))
  rawText : String
deriving DecidableEq

/-- `PDFExtractor._process_page_text((i, page))`: `page.extract_text() or ""`
then the page dict.  There is no per-page exception handler here: a raising
`extract_text` propagates out of the call. -/
def processPageText (job : ℕ × Page) : Except String TextPage :=
  match job.2.extractText with
  | .error e => .error e
  | .ok t => .ok { page := job.1 + 1, content := t.getD "" }

/-- The table post-processing inside `_process_page_structured`: table errors
are caught per page (yielding `[]`), falsy (empty) tables are skipped, `None`
cells become `""`. -/
def processTables (ts : Except String (List RawTable)) : List (List (List String)) :=
  match ts with
  | .error _ => []
  | .ok tables =>
      (tables.filter (fun tbl => !tbl.isEmpty)).map
        (fun tbl => tbl.map (fun row => row.map (fun c => c.getD "")))

/-- The heading heuristic of `_process_page_structured`: at most 8 words, at
most 100 characters, ends with one of `.`, `:`, `?`, `!`. -/
def isHeading (p : String) : Bool :=
  let ws := (p.split Char.isWhitespace).filter (fun w => !w.isEmpty)
  decide (ws.length ≤ 8) && decide (p.length ≤ 100) &&
    (p.endsWith "." || p.endsWith ":" || p.endsWith "?" || p.endsWith "!")

/-- The paragraph loop of `_process_page_structured`: split on blank lines,
keep paragraphs whose strip is non-empty, classify each stripped paragraph as
heading or paragraph. -/
def elementsOf (text : String) : List Element :=
  let paragraphs := (text.splitOn "\n\n").filter (fun p => !p.trim.isEmpty)
  paragraphs.foldr
    (fun p acc =>
      let q := p.trim
      if q.isEmpty then acc
      else (if isHeading q then Element.heading q else Element.paragraph q) :: acc)
    []

/-- `PDFExtractor._process_page_structured((i, page))`.  Only the table call is
guarded by a per-page handler; a raising `extract_text` propagates. -/
def processPageStructured (job : ℕ × Page) : Except String StructuredPage :=
  match job.2.extractText with
  | .error e => .error e
  | .ok t0 =>
      let text := t0.getD ""
      .ok { page := job.1 + 1
            elements := elementsOf text
            tables := processTables job.2.extractTables
            rawText := text }

/-- The fan-in loop over completed futures: starting from the pre-allocated
`[None] * n` list, each completed job writes its result at its reserved index.
`jobs` is the completion order. -/
def fillSlots (g : ℕ × α → β) (jobs : List (ℕ × α)) (acc : List (Option β)) :
    List (Option β) :=
  jobs.foldl (fun a j => a.set j.1 (some (g j))) acc

/-- The parallel branch of `_extract_text` / `_extract_structured`: futures
complete in the order `jobs`; `future.result()` re-raises a failure of the
per-page operation, aborting the fan-in loop. -/
def parallelFill (f : ℕ × α → Except String β) (n : ℕ) (jobs : List (ℕ × α)) :
    Except String (List (Option β)) :=
  jobs.foldlM (fun a j => (f j).map (fun r => a.set j.1 (some r))) (List.replicate n none)

/-- The sequential branch of `_extract_text`: iterate pages in index order,
`page.extract_text() or ""`, append the page dict; a raising `extract_text`
propagates immediately. -/
def extractTextSeqGo (pages : List Page) (i : ℕ) : Except String (List TextPage) :=
  match pages with
  | [] => .ok []
  | p :: rest =>
      match p.extractText with
      | .error e => .error e
      | .ok t =>
          (extractTextSeqGo rest (i + 1)).map
            (fun l => { page := i + 1, content := t.getD "" } :: l)

/-- Sequential `_extract_text` body (the `else` branch). -/
def extractTextSequential (pages : List Page) : Except String (List TextPage) :=
  extractTextSeqGo pages 0

/-- The sequential branch of `_extract_structured`: calls
`_process_page_structured((i, page))` in index order. -/
def extractStructuredSeqGo (pages : List Page) (i : ℕ) :
    Except String (List StructuredPage) :=
  match pages with
  | [] => .ok []
  | p :: rest =>
      match processPageStructured (i, p) with
      | .error e => .error e
      | .ok r => (extractStructuredSeqGo rest (i + 1)).map (fun l => r :: l)

/-- Sequential `_extract_structured` body. -/
def extractStructuredSequential (pages : List Page) : Except String (List StructuredPage) :=
  extractStructuredSeqGo pages 0

/-- The `content` list computed by `PDFExtractor._extract_text`:
parallel when `len(pdf.pages) > 5 or fast_mode`, else sequential.  The list
entries are dict-or-`None` (the parallel branch pre-allocates `None`
placeholders); in the sequential branch every entry is a dict. -/
def extractTextContent (pages : List Page) (fastMode : Bool)
    (completionOrder : List (ℕ × Page)) : Except String (List (Option TextPage)) :=
  if pages.length > 5 || fastMode then
    parallelFill processPageText pages.length completionOrder
  else
    (extractTextSequential pages).map (fun l => l.map some)

/-- The `content` list computed by `PDFExtractor._extract_structured`:
parallel when `len(pdf.pages) > 3 or fast_mode`, else sequential. -/
def extractStructuredContent (pages : List Page) (fastMode : Bool)
    (completionOrder : List (ℕ × Page)) : Except String (List (Option StructuredPage)) :=
  if pages.length > 3 || fastMode then
    parallelFill processPageStructured pages.length completionOrder
  else
    (extractStructuredSequential pages).map (fun l => l.map some)

/-- The text a page contributes when its `extract_text` call succeeds. -/
def textOf (p : Page) : String :=
  match p.extractText with
  | .ok t => t.getD ""
  | .error _ => ""

/-- The per-page text result on the success path. -/
def textPageOf (j : ℕ × Page) : TextPage :=
  { page := j.1 + 1, content := textOf j.2 }

/-- The per-page structured result on the success path. -/
def structuredPageOf (j : ℕ × Page) : StructuredPage :=
  { page := j.1 + 1
    elements := elementsOf (textOf j.2)
    tables := processTables j.2.extractTables
    rawText := textOf j.2 }

/-! ## OCR service (`OCRService`, `ocr_service.py`) -/

/-- Opaque rasterized page image: outcomes of running the OCR engine on it,
with and without the preprocessing pipeline (either run may raise). -/
structure OCRImage where
  ocrPlain : Except String String
  ocrPreprocessed : Except String String
deriving DecidableEq

/-- `OCRService._process_image(image, preprocess)`: the whole body is wrapped
in a handler that substitutes `""` for any failure. -/
def processImage (img : OCRImage) (preprocess : Bool) : String :=
  match (if preprocess then img.ocrPreprocessed else img.ocrPlain) with
  | .ok t => t
  | .error _ => ""

/-- The OCR fan-in loop of `process_pdf`: `results[idx] = {"page": idx + 1,
"content": text}` per completed future, over completion order `order`.  The
futures run `_process_image_with_index`, which never raises because
`_process_image` swallows failures. -/
def ocrBatch (images : List OCRImage) (preprocess : Bool)
    (order : List (ℕ × OCRImage)) : List (Option TextPage) :=
  fillSlots (fun j => { page := j.1 + 1, content := processImage j.2 preprocess })
    order (List.replicate images.length none)

/-- The constructor state of `OCRService(dpi, language, max_workers)`. -/
structure OCRService where
  dpi : ℕ
  language : String
  maxWorkers : ℕ
deriving DecidableEq

/-- The DPI `process_pdf` actually uses:
`current_dpi = 150 if fast_mode else self.dpi`. -/
def currentDpi (svc : OCRService) (fastMode : Bool) : ℕ :=
  if fastMode then 150 else svc.dpi

/-- The OCR cache key `(pdf_path, current_dpi, self.language, preprocess_images)`. -/
structure OcrCacheKey where
  pdfPath : String
  dpi : ℕ
  language : String
  preprocess : Bool
deriving DecidableEq, BEq

/-- The cache key `process_pdf` builds. -/
def ocrCacheKey (svc : OCRService) (pdfPath : String) (preprocessImages : Bool)
    (fastMode : Bool) : OcrCacheKey :=
  { pdfPath := pdfPath
    dpi := currentDpi svc fastMode
    language := svc.language
    preprocess := preprocessImages }

/-- The result portion of `OCRService.process_pdf`: consult the cache under the
key, else rasterize at the chosen DPI (`convert_from_path`, which may raise and
is then re-wrapped) and run the OCR fan-out.  `rasterize` is the opaque
pdf2image collaborator, `chooseOrder` the completion order of the OCR pool. -/
def processPdfResults (svc : OCRService) (pdfPath : String)
    (rasterize : ℕ → Except String (List OCRImage))
    (chooseOrder : List OCRImage → List (ℕ × OCRImage))
    (useCache : Bool) (preprocessImages : Bool) (fastMode : Bool)
    (cache : List (OcrCacheKey × List (Option TextPage))) :
    Except String (List (Option TextPage)) :=
  let key := ocrCacheKey svc pdfPath preprocessImages fastMode
  let cached := if useCache then (cache.find? (fun e => e.1 == key)).map Prod.snd else none
  match cached with
  | some r => .ok r
  | none =>
      match rasterize (currentDpi svc fastMode) with
      | .error e => .error ("OCR processing failed: " ++ e)
      | .ok images => .ok (ocrBatch images preprocessImages (chooseOrder images))

/-- What one `process_pdf` call observably does: the DPI handed to
`convert_from_path`, the cache key used, and the returned page list. -/
structure OcrRunInfo where
  usedDpi : ℕ
  key : OcrCacheKey
  results : Except String (List (Option TextPage))

/-- `OCRService.process_pdf`, bundling used DPI, cache key and results. -/
def processPdf (svc : OCRService) (pdfPath : String)
    (rasterize : ℕ → Except String (List OCRImage))
    (chooseOrder : List OCRImage → List (ℕ × OCRImage))
    (useCache : Bool) (preprocessImages : Bool) (fastMode : Bool)
    (cache : List (OcrCacheKey × List (Option TextPage))) : OcrRunInfo :=
  { usedDpi := currentDpi svc fastMode
    key := ocrCacheKey svc pdfPath preprocessImages fastMode
    results := processPdfResults svc pdfPath rasterize chooseOrder useCache
      preprocessImages fastMode cache }

/-- The OCR service the orchestrator (`process_pdf_with_progress`) builds for
an `ocr` extraction: `OCRService(dpi=optimal_dpi, max_workers=max_workers)` —
the language argument is left at its default `eng`. -/
def orchestratorOcrService (optimalDpi : ℕ) (maxWorkers : ℕ) : OCRService :=
  { dpi := optimalDpi, language := "eng", maxWorkers := maxWorkers }

/-- The DPI actually used when the orchestrator-built service processes the
document with the callers `fast_mode` flag
(`_extract_with_ocr` forwards `fast_mode=fast_mode`). -/
def orchestratorOcrDpi (optimalDpi : ℕ) (maxWorkers : ℕ) (fastMode : Bool) : ℕ :=
  currentDpi (orchestratorOcrService optimalDpi maxWorkers) fastMode

/-! ## Concrete scenarios used by individual claims -/

/-- A fresh process: empty `progress_store`, empty `active_tasks`. -/
def emptyRegistry : Registry := { progressStore := [], activeTasks := [] }

/-- A tracker created at wall time 0 with `total_steps = 100`. -/
def c2Init : ProgressTracker × Registry := initTracker "t" 100 [] 0 emptyRegistry

/-- The C2 scenario: `update(-5, "processing")` at wall time 1. -/
def c2Run : ProgressTracker × Registry × Snapshot :=
  updateTracker c2Init.1 c2Init.2 (-5) "processing" none 1

/-- The C3 scenario: a fresh tracker on an empty registry, no update yet. -/
def c3Init : ProgressTracker × Registry := initTracker "t" 100 [] 0 emptyRegistry

/-- Base tracker for the C4 scenario. -/
def c4Init : ProgressTracker × Registry := initTracker "t" 100 [] 0 emptyRegistry

/-- C4 step 1: `update(50, "processing")` at wall time 10, which computes an
estimate of (10 / 50) * 50 = 10. -/
def c4Run1 : ProgressTracker × Registry × Snapshot :=
  updateTracker c4Init.1 c4Init.2 50 "processing" none 10

/-- C4 step 2: `complete()` at wall time 20. -/
def c4Run2 : ProgressTracker × Registry × Snapshot :=
  completeTracker c4Run1.1 c4Run1.2.1 none 20

/-- Base tracker for the C5 scenario. -/
def c5Init : ProgressTracker × Registry := initTracker "t" 100 [] 0 emptyRegistry

/-- C5: `complete()` at wall time 1 puts the task in a terminal state. -/
def c5Complete : ProgressTracker × Registry × Snapshot :=
  completeTracker c5Init.1 c5Init.2 none 1

/-- C5: a later `update(5, "processing")` on the completed task. -/
def c5Update : ProgressTracker × Registry × Snapshot :=
  updateTracker c5Complete.1 c5Complete.2.1 5 "processing" none 2

/-- C5: a later `error("boom")` on the completed task. -/
def c5Error : ProgressTracker × Registry × Snapshot :=
  errorTracker c5Complete.1 c5Complete.2.1 "boom" 2

/-- Base tracker for the C9 scenario, created at wall time 3900. -/
def c9Init : ProgressTracker × Registry := initTracker "t" 100 [] 3900 emptyRegistry

/-- C9: the task completes (its real last update) at wall time 4000. -/
def c9Complete : ProgressTracker × Registry × Snapshot :=
  completeTracker c9Init.1 c9Init.2 none 4000

/-- C9: the periodic sweep runs 10 time-units later, at wall time 4010. -/
def c9Swept : Registry := cleanupOldTasks c9Complete.2.1 4010

/-- A page whose `extract_text` succeeds with text. -/
def pageA : Page :=
  { extractText := .ok (some "alpha\n\nbeta gamma delta."), extractTables := .ok [] }

/-- A page whose `extract_text` returns `None` and that carries a table. -/
def pageB : Page :=
  { extractText := .ok none, extractTables := .ok [[[some "x", none]]] }

/-- A page whose `extract_text` raises. -/
def pageRaise : Page := { extractText := .error "boom", extractTables := .ok [] }

/-- C1 witness pages: both pages succeed. -/
def c1Pages : List Page := [pageA, pageB]

/-- C1 witness completion order: the second page finishes first. -/
def c1Order : List (ℕ × Page) := [(1, pageB), (0, pageA)]

/-- C6 pages: the first page succeeds, the second raises. -/
def c6Pages : List Page := [pageA, pageRaise]

/-- C6 completion order (index order). -/
def c6Order : List (ℕ × Page) := [(0, pageA), (1, pageRaise)]

/-- An image the OCR engine reads fine. -/
def imgOk : OCRImage := { ocrPlain := .ok "hello", ocrPreprocessed := .ok "hello pre" }

/-- An image on which the OCR engine raises. -/
def imgBad : OCRImage :=
  { ocrPlain := .error "tesseract crash", ocrPreprocessed := .error "tesseract crash" }

/-- C6 OCR images: the failing image first. -/
def c6Images : List OCRImage := [imgBad, imgOk]

/-- C6 OCR completion order: the good image finishes first. -/
def c6ImgOrder : List (ℕ × OCRImage) := [(1, imgOk), (0, imgBad)]

/-! ## Helper lemmas about rounding and the fan-in loop -/

theorem roundHalfEven_nonneg (q : ℚ) (h : 0 ≤ q) : 0 ≤ roundHalfEven q := by
  unfold roundHalfEven
  split
  · split
    · exact Int.le_floor.mpr (by exact_mod_cast h)
    · have : (0 : ℤ) ≤ ⌊q⌋ := Int.le_floor.mpr (by exact_mod_cast h)
      omega
  · exact Int.le_floor.mpr (by push_cast; linarith)

theorem pyRound_nonneg (n : ℕ) (q : ℚ) (h : 0 ≤ q) : 0 ≤ pyRound n q := by
  unfold pyRound
  apply div_nonneg
  · exact_mod_cast roundHalfEven_nonneg _ (by positivity)
  · positivity


theorem fillSlots_length (g : ℕ × α → β) :
    ∀ (jobs : List (ℕ × α)) (acc : List (Option β)),
    (fillSlots g jobs acc).length = acc.length := by
  intro jobs
  induction jobs with
  | nil => intro acc; rfl
  | cons j rest ih =>
      intro acc
      show (fillSlots g rest (acc.set j.1 (some (g j)))).length = acc.length
      rw [ih, List.length_set]

theorem fillSlots_getElem?_of_ne (g : ℕ × α → β) (k : ℕ) :
    ∀ (jobs : List (ℕ × α)) (acc : List (Option β)),
    (∀ j ∈ jobs, j.1 ≠ k) → (fillSlots g jobs acc)[k]? = acc[k]? := by
  intro jobs
  induction jobs with
  | nil => intro acc _; rfl
  | cons j rest ih =>
      intro acc h
      show (fillSlots g rest (acc.set j.1 (some (g j))))[k]? = acc[k]?
      rw [ih _ (fun j' hj' => h j' (List.mem_cons_of_mem _ hj')),
        List.getElem?_set_ne (h j (List.mem_cons_self _ _))]

theorem fillSlots_getElem?_of_mem (g : ℕ × α → β) (k : ℕ) (v : α) :
    ∀ (jobs : List (ℕ × α)) (acc : List (Option β)),
    (k, v) ∈ jobs → (jobs.map Prod.fst).Nodup → k < acc.length →
    (fillSlots g jobs acc)[k]? = some (some (g (k, v))) := by
  intro jobs
  induction jobs with
  | nil => intro acc h; cases h
  | cons j rest ih =>
      intro acc hmem hnd hk
      rw [List.map_cons, List.nodup_cons] at hnd
      by_cases hjk : j.1 = k
      · have hj : j = (k, v) := by
          rcases List.mem_cons.mp hmem with h | h
          · exact h.symm
          · exact absurd (List.mem_map_of_mem Prod.fst h) (hjk ▸ hnd.1)
        subst hj
        show (fillSlots g rest (acc.set k (some (g (k, v)))))[k]? = _
        rw [fillSlots_getElem?_of_ne g k rest _ ?hne]
        · exact List.getElem?_set_self hk
        case hne =>
          intro j' hj' heq
          apply hnd.1
          have hmm : j'.1 ∈ List.map Prod.fst rest := List.mem_map_of_mem Prod.fst hj'
          rwa [heq] at hmm
      · have hm : (k, v) ∈ rest := by
          rcases List.mem_cons.mp hmem with h | h
          · exact absurd (congrArg Prod.fst h).symm hjk
          · exact h
        show (fillSlots g rest (acc.set j.1 (some (g j))))[k]? = _
        exact ih _ hm hnd.2 (by rw [List.length_set]; exact hk)

/-- Fan-in correctness: if the completion order is a permutation of the indexed
page list, every reserved slot ends up holding the result of the per-page
operation on its own page, so the fan-in output is exactly the in-order map. -/
theorem fillSlots_perm_enum (g : ℕ × α → β) (pages : List α) (jobs : List (ℕ × α))
    (hperm : jobs.Perm pages.enum) :
    fillSlots g jobs (List.replicate pages.length none) =
      pages.enum.map (fun j => some (g j)) := by
  apply List.ext_getElem?
  intro k
  by_cases hk : k < pages.length
  · have hEnum : pages.enum[k]? = some (k, pages[k]) := by
      rw [List.getElem?_enum, List.getElem?_eq_getElem hk]
      rfl
    have hmemE : (k, pages[k]) ∈ pages.enum := List.mem_iff_getElem?.mpr ⟨k, hEnum⟩
    have hmemJ : (k, pages[k]) ∈ jobs := hperm.mem_iff.mpr hmemE
    have hnd : (jobs.map Prod.fst).Nodup := by
      rw [(hperm.map Prod.fst).nodup_iff, List.enum_map_fst]
      exact List.nodup_range _
    rw [fillSlots_getElem?_of_mem g k pages[k] jobs _ hmemJ hnd
      (by rw [List.length_replicate]; exact hk)]
    rw [List.getElem?_map, hEnum]
    rfl
  · have l1 : (fillSlots g jobs (List.replicate pages.length none)).length = pages.length := by
      rw [fillSlots_length, List.length_replicate]
    have l2 : (pages.enum.map (fun j => some (g j))).length = pages.length := by
      rw [List.length_map, List.enum_length]
    rw [List.getElem?_eq_none (by omega), List.getElem?_eq_none (by omega)]

/-- When every submitted job succeeds, the fan-in loop with re-raising
`future.result()` degenerates to the pure fan-in. -/
theorem foldlM_fill_go (f : ℕ × α → Except String β) (g : ℕ × α → β) :
    ∀ (jobs : List (ℕ × α)) (acc : List (Option β)),
    (∀ j ∈ jobs, f j = .ok (g j)) →
    jobs.foldlM (fun a j => (f j).map (fun r => a.set j.1 (some r))) acc
      = .ok (fillSlots g jobs acc) := by
  intro jobs
  induction jobs with
  | nil => intro acc _; rfl
  | cons j rest ih =>
      intro acc h
      rw [List.foldlM_cons, h j (List.mem_cons_self _ _)]
      exact ih _ (fun j' hj' => h j' (List.mem_cons_of_mem _ hj'))

theorem parallelFill_ok (f : ℕ × α → Except String β) (g : ℕ × α → β) (n : ℕ)
    (jobs : List (ℕ × α)) (h : ∀ j ∈ jobs, f j = .ok (g j)) :
    parallelFill f n jobs = .ok (fillSlots g jobs (List.replicate n none)) :=
  foldlM_fill_go f g jobs (List.replicate n none) h

/-- If some submitted job fails, the fan-in loop re-raises. -/
theorem foldlM_fill_error (f : ℕ × α → Except String β) :
    ∀ (jobs : List (ℕ × α)) (acc : List (Option β)),
    (∃ j ∈ jobs, isOkE (f j) = false) →
    ∃ e, jobs.foldlM (fun a j => (f j).map (fun r => a.set j.1 (some r))) acc
      = .error e := by
  intro jobs
  induction jobs with
  | nil => intro acc h; obtain ⟨j, hj, _⟩ := h; cases hj
  | cons j rest ih =>
      intro acc h
      rw [List.foldlM_cons]
      cases hf : f j with
      | error e => exact ⟨e, rfl⟩
      | ok r =>
          obtain ⟨j', hj', hbad⟩ := h
          rcases List.mem_cons.mp hj' with hEq | hMem
          · rw [hEq, hf] at hbad
            simp [isOkE] at hbad
          · exact ih _ ⟨j', hMem, hbad⟩

theorem processPageText_ok (j : ℕ × Page) (h : isOkE j.2.extractText = true) :
    processPageText j = .ok (textPageOf j) := by
  cases he : j.2.extractText with
  | error e => simp [isOkE, he] at h
  | ok t => simp [processPageText, textPageOf, textOf, he]

theorem processPageStructured_ok (j : ℕ × Page) (h : isOkE j.2.extractText = true) :
    processPageStructured j = .ok (structuredPageOf j) := by
  cases he : j.2.extractText with
  | error e => simp [isOkE, he] at h
  | ok t => simp [processPageStructured, structuredPageOf, textOf, he]

theorem extractTextSeqGo_ok :
    ∀ (pages : List Page) (i : ℕ), (∀ p ∈ pages, isOkE p.extractText = true) →
    extractTextSeqGo pages i = .ok ((List.enumFrom i pages).map textPageOf) := by
  intro pages
  induction pages with
  | nil => intro i _; rfl
  | cons p rest ih =>
      intro i h
      have hp := h p (List.mem_cons_self _ _)
      cases he : p.extractText with
      | error e => simp [isOkE, he] at hp
      | ok t =>
          rw [List.enumFrom_cons, List.map_cons]
          simp only [extractTextSeqGo, he]
          rw [ih (i + 1) (fun q hq => h q (List.mem_cons_of_mem _ hq))]
          simp [Except.map, textPageOf, textOf, he]

theorem extractStructuredSeqGo_ok :
    ∀ (pages : List Page) (i : ℕ), (∀ p ∈ pages, isOkE p.extractText = true) →
    extractStructuredSeqGo pages i = .ok ((List.enumFrom i pages).map structuredPageOf) := by
  intro pages
  induction pages with
  | nil => intro i _; rfl
  | cons p rest ih =>
      intro i h
      have hp : processPageStructured (i, p) = .ok (structuredPageOf (i, p)) :=
        processPageStructured_ok _ (h p (List.mem_cons_self _ _))
      rw [List.enumFrom_cons, List.map_cons]
      simp only [extractStructuredSeqGo, hp]
      rw [ih (i + 1) (fun q hq => h q (List.mem_cons_of_mem _ hq))]
      simp [Except.map]

/-- The per-page operations succeed on every job drawn from a permutation of
the indexed page list, as soon as every page's `extract_text` call succeeds. -/
theorem job_page_mem (pages : List Page) (order : List (ℕ × Page))
    (hperm : order.Perm pages.enum) (j : ℕ × Page) (hj : j ∈ order) :
    j.2 ∈ pages := by
  have hjE : j ∈ pages.enum := hperm.mem_iff.mp hj
  have hmm : j.2 ∈ pages.enum.map Prod.snd := List.mem_map_of_mem Prod.snd hjE
  rwa [List.enum_map_snd] at hmm

theorem extractTextContent_ok (pages : List Page) (fastMode : Bool)
    (order : List (ℕ × Page)) (hperm : order.Perm pages.enum)
    (hok : ∀ p ∈ pages, isOkE p.extractText = true) :
    extractTextContent pages fastMode order =
      .ok (pages.enum.map (fun j => some (textPageOf j))) := by
  unfold extractTextContent
  split
  · have hf : ∀ j ∈ order, processPageText j = .ok (textPageOf j) := fun j hj =>
      processPageText_ok j (hok j.2 (job_page_mem pages order hperm j hj))
    rw [parallelFill_ok processPageText textPageOf pages.length order hf,
      fillSlots_perm_enum _ _ _ hperm]
  · rw [extractTextSequential, extractTextSeqGo_ok pages 0 hok]
    show Except.ok _ = _
    simp only [List.map_map]
    rfl

theorem extractStructuredContent_ok (pages : List Page) (fastMode : Bool)
    (order : List (ℕ × Page)) (hperm : order.Perm pages.enum)
    (hok : ∀ p ∈ pages, isOkE p.extractText = true) :
    extractStructuredContent pages fastMode order =
      .ok (pages.enum.map (fun j => some (structuredPageOf j))) := by
  unfold extractStructuredContent
  split
  · have hf : ∀ j ∈ order, processPageStructured j = .ok (structuredPageOf j) := fun j hj =>
      processPageStructured_ok j (hok j.2 (job_page_mem pages order hperm j hj))
    rw [parallelFill_ok processPageStructured structuredPageOf pages.length order hf,
      fillSlots_perm_enum _ _ _ hperm]
  · rw [extractStructuredSequential, extractStructuredSeqGo_ok pages 0 hok]
    show Except.ok _ = _
    simp only [List.map_map]
    rfl

/-- A page whose `extract_text` raises makes the whole text-extraction call
fail, on both the parallel and the sequential branch. -/
theorem extractTextContent_error (pages : List Page) (fastMode : Bool)
    (order : List (ℕ × Page)) (hperm : order.Perm pages.enum)
    (hbad : ∃ p ∈ pages, isOkE p.extractText = false) :
    ∃ e, extractTextContent pages fastMode order = .error e := by
  unfold extractTextContent
  obtain ⟨p, hp, hpe⟩ := hbad
  split
  · apply foldlM_fill_error
    obtain ⟨n, hn⟩ := List.mem_iff_getElem?.mp hp
    have hEnum : pages.enum[n]? = some (n, p) := by
      rw [List.getElem?_enum, hn]
      rfl
    have hmemJ : (n, p) ∈ order := hperm.mem_iff.mpr (List.mem_iff_getElem?.mpr ⟨n, hEnum⟩)
    refine ⟨(n, p), hmemJ, ?_⟩
    cases he : p.extractText with
    | error e => simp [processPageText, isOkE, he]
    | ok t => rw [he] at hpe; simp [isOkE] at hpe
  · rw [extractTextSequential]
    have hgo : ∀ (l : List Page) (i : ℕ), (∃ q ∈ l, isOkE q.extractText = false) →
        ∃ e, extractTextSeqGo l i = .error e := by
      intro l
      induction l with
      | nil => intro i h; obtain ⟨q, hq, _⟩ := h; cases hq
      | cons q rest ih =>
          intro i h
          cases he : q.extractText with
          | error e => exact ⟨e, by simp [extractTextSeqGo, he]⟩
          | ok t =>
              obtain ⟨q', hq', hbad'⟩ := h
              rcases List.mem_cons.mp hq' with hEq | hMem
              · rw [hEq, he] at hbad'
                simp [isOkE] at hbad'
              · obtain ⟨e, hee⟩ := ih (i + 1) ⟨q', hMem, hbad'⟩
                exact ⟨e, by simp [extractTextSeqGo, he, hee, Except.map]⟩
    obtain ⟨e, hee⟩ := hgo pages 0 ⟨p, hp, hpe⟩
    exact ⟨e, by rw [hee]; rfl⟩

/-- A page whose `extract_text` raises makes the whole structured-extraction
call fail, on both branches. -/
theorem extractStructuredContent_error (pages : List Page) (fastMode : Bool)
    (order : List (ℕ × Page)) (hperm : order.Perm pages.enum)
    (hbad : ∃ p ∈ pages, isOkE p.extractText = false) :
    ∃ e, extractStructuredContent pages fastMode order = .error e := by
  unfold extractStructuredContent
  obtain ⟨p, hp, hpe⟩ := hbad
  split
  · apply foldlM_fill_error
    obtain ⟨n, hn⟩ := List.mem_iff_getElem?.mp hp
    have hEnum : pages.enum[n]? = some (n, p) := by
      rw [List.getElem?_enum, hn]
      rfl
    have hmemJ : (n, p) ∈ order := hperm.mem_iff.mpr (List.mem_iff_getElem?.mpr ⟨n, hEnum⟩)
    refine ⟨(n, p), hmemJ, ?_⟩
    cases he : p.extractText with
    | error e => simp [processPageStructured, isOkE, he]
    | ok t => rw [he] at hpe; simp [isOkE] at hpe
  · rw [extractStructuredSequential]
    have hgo : ∀ (l : List Page) (i : ℕ), (∃ q ∈ l, isOkE q.extractText = false) →
        ∃ e, extractStructuredSeqGo l i = .error e := by
      intro l
      induction l with
      | nil => intro i h; obtain ⟨q, hq, _⟩ := h; cases hq
      | cons q rest ih =>
          intro i h
          cases he : q.extractText with
          | error e => exact ⟨e, by simp [extractStructuredSeqGo, processPageStructured, he]⟩
          | ok t =>
              obtain ⟨q', hq', hbad'⟩ := h
              rcases List.mem_cons.mp hq' with hEq | hMem
              · rw [hEq, he] at hbad'
                simp [isOkE] at hbad'
              · obtain ⟨e, hee⟩ := ih (i + 1) ⟨q', hMem, hbad'⟩
                exact ⟨e, by simp [extractStructuredSeqGo, processPageStructured, he, hee, Except.map]⟩
    obtain ⟨e, hee⟩ := hgo pages 0 ⟨p, hp, hpe⟩
    exact ⟨e, by rw [hee]; rfl⟩

theorem storeGet_storeSet_self (s : Store) (k : String) (v : Snapshot) :
    storeGet (storeSet s k v) k = some v := by
  unfold storeGet storeSet
  rw [List.find?_cons_of_pos]
  · rfl
  · exact beq_self_eq_true k

/-! ## Claim theorems -/

/-- Claim C7: for every document characteristics and every base worker count,
the worker count returned by `analyze_document` equals the result of the rule
chain as the specification words it: start from base_workers; cap at
min(2, base_workers) when page_count is below 5, else raise to
min(base_workers + 2, 8) when above 50; when is_scanned raise to at least
min(base_workers + 1, 6); when the average page size exceeds 1 MiB subtract 1
with a floor of 2. -/
theorem c7_optimal_workers_rule (baseWorkers : ℤ) (pageCount : ℕ)
    (fileSizeBytes : ℕ) (hasImages hasTables isScanned : Bool) :
    (analyzeDocument baseWorkers pageCount fileSizeBytes hasImages hasTables
      isScanned).maxWorkers
      = specWorkerRule baseWorkers pageCount fileSizeBytes isScanned := rfl

/-- Claim C8 counterexample: at page_count = 0 the optimizer returns
chunk_size = 0, violating the claimed lower bound chunk_size at least 1. -/
theorem c8_counterexample :
    (analyzeDocument 4 0 0 false false false).chunkSize = 0 ∧
    ¬(1 ≤ (analyzeDocument 4 0 0 false false false).chunkSize) := by
  decide

/-- Claim C8 amended: for every document characteristics with page_count at
least 1, the returned chunk_size is at least 1, and for every page_count the
value follows the table (page_count itself below 20, 10 below 50, 20 below
100, else 30); at page_count = 0 the code returns 0, breaching the value
object bound. -/
theorem c8_chunk_size_amended (baseWorkers : ℤ) (pageCount : ℕ)
    (fileSizeBytes : ℕ) (hasImages hasTables isScanned : Bool)
    (h : 1 ≤ pageCount) :
    1 ≤ (analyzeDocument baseWorkers pageCount fileSizeBytes hasImages hasTables
        isScanned).chunkSize ∧
    (analyzeDocument baseWorkers pageCount fileSizeBytes hasImages hasTables
        isScanned).chunkSize = specChunkRule pageCount := by
  constructor
  · show 1 ≤ calculateChunkSize pageCount
    unfold calculateChunkSize
    split
    · omega
    · split
      · omega
      · split <;> omega
  · rfl

theorem c8_witness :
    1 ≤ 7 ∧
    (1 ≤ (analyzeDocument 4 7 1000 false false false).chunkSize ∧
      (analyzeDocument 4 7 1000 false false false).chunkSize = specChunkRule 7) :=
  ⟨by decide, c8_chunk_size_amended 4 7 1000 false false false (by decide)⟩

/-- Claim C10: with fast_mode = true, the rasterization DPI actually used and
the dpi component of the OCR cache key are 150 regardless of the DPI the
service was constructed with — including the optimizer-chosen optimal_dpi the
orchestrator passes in; with fast_mode = false the configured DPI is used. -/
theorem c10_fast_mode_dpi (svc : OCRService) (pdfPath : String)
    (rasterize : ℕ → Except String (List OCRImage))
    (chooseOrder : List OCRImage → List (ℕ × OCRImage))
    (useCache preprocessImages : Bool)
    (cache : List (OcrCacheKey × List (Option TextPage)))
    (optimalDpi maxWorkers : ℕ) :
    (processPdf svc pdfPath rasterize chooseOrder useCache preprocessImages
        true cache).usedDpi = 150 ∧
    (processPdf svc pdfPath rasterize chooseOrder useCache preprocessImages
        true cache).key.dpi = 150 ∧
    (processPdf svc pdfPath rasterize chooseOrder useCache preprocessImages
        false cache).usedDpi = svc.dpi ∧
    (processPdf svc pdfPath rasterize chooseOrder useCache preprocessImages
        false cache).key.dpi = svc.dpi ∧
    orchestratorOcrDpi optimalDpi maxWorkers true = 150 ∧
    orchestratorOcrDpi optimalDpi maxWorkers false = optimalDpi :=
  ⟨rfl, rfl, rfl, rfl, rfl, rfl⟩

/-- Claim C2 counterexample: `update(-5)` on a tracker with total_steps = 100
stores current_step = -5 in the registry snapshot; the stored value is not
clamped into the interval from 0 to total_steps. -/
theorem c2_counterexample :
    (getTaskProgress c2Run.2.1 "t").currentStep = some (-5) ∧
    ¬(0 ≤ (-5 : ℤ) ∧ (-5 : ℤ) ≤ 100) := by
  decide

/-- Claim C2 amended: `update` clamps only from above — the stored
current_step is exactly min(value, total_steps), so a value above total_steps
is clamped to total_steps, but a negative value is stored unchanged; the
stored value lies in the interval from 0 to total_steps whenever the value
passed in is non-negative (and total_steps is). -/
theorem c2_update_clamp_amended (t : ProgressTracker) (reg : Registry) (v : ℤ)
    (status : String) (message : Option String) (now : ℚ)
    (hv : 0 ≤ v) (hT : 0 ≤ t.totalSteps) :
    (updateTracker t reg v status message now).2.2.currentStep
      = some (min v t.totalSteps) ∧
    0 ≤ min v t.totalSteps ∧ min v t.totalSteps ≤ t.totalSteps := by
  refine ⟨rfl, ?_, ?_⟩ <;> omega

theorem c2_witness :
    (0 ≤ (7 : ℤ) ∧ 0 ≤ c2Init.1.totalSteps) ∧
    ((updateTracker c2Init.1 c2Init.2 7 "processing" none 1).2.2.currentStep
        = some (min 7 c2Init.1.totalSteps) ∧
      0 ≤ min 7 c2Init.1.totalSteps ∧
      min 7 c2Init.1.totalSteps ≤ c2Init.1.totalSteps) :=
  ⟨⟨by decide, by decide⟩,
    c2_update_clamp_amended c2Init.1 c2Init.2 7 "processing" none 1
      (by decide) (by decide)⟩

/-- Claim C3 (code bug): right after construction the tracker object does hold
current_step = 0, status initializing and the captured start time, but the
registration line writes `progress_store.get(task_id, {})` — an empty dict —
into the registry, because `get_progress_data` reads the store before the
first write; so querying the registry before any update returns a snapshot
with no current_step and no status at all. -/
theorem c3_initial_snapshot_empty :
    getTaskProgress c3Init.2 "t" = emptySnapshot ∧
    (getTaskProgress c3Init.2 "t").currentStep ≠ some 0 ∧
    (getTaskProgress c3Init.2 "t").status ≠ some "initializing" ∧
    c3Init.1.currentStep = 0 ∧
    c3Init.1.status = "initializing" ∧
    c3Init.1.startTime = 0 := by
  decide

/-- Claim C5 counterexample: after `complete()` the stored status is the
terminal "completed", yet a later `update(5, "processing")` moves the stored
status back to "processing", and a later `error("boom")` moves it to the other
terminal state "error". -/
theorem c5_counterexample :
    (getTaskProgress c5Complete.2.1 "t").status = some "completed" ∧
    (getTaskProgress c5Update.2.1 "t").status = some "processing" ∧
    (getTaskProgress c5Error.2.1 "t").status = some "error" := by
  decide

/-- Claim C5 amended: terminal states are not absorbing — `update`
unconditionally overwrites the stored and in-object status with its argument
(so later update/complete/error calls can move a task out of, or between,
terminal states); reaching "completed" or "error" only schedules removal of
the id from the active set after the fixed 300 time-unit delay. -/
theorem c5_status_overwrite_amended (t : ProgressTracker) (reg : Registry)
    (v : ℤ) (status : String) (message : Option String) (now : ℚ) :
    (updateTracker t reg v status message now).2.2.status = some status ∧
    (updateTracker t reg v status message now).1.status = status ∧
    getTaskProgress (updateTracker t reg v status message now).2.1 t.taskId
      = (updateTracker t reg v status message now).2.2 ∧
    schedulesActiveRemoval "completed" = true ∧
    schedulesActiveRemoval "error" = true := by
  refine ⟨rfl, rfl, ?_, rfl, rfl⟩
  have hstep : getTaskProgress (updateTracker t reg v status message now).2.1 t.taskId
      = (storeGet (storeSet reg.progressStore t.taskId
          (updateTracker t reg v status message now).2.2) t.taskId).getD
        (notFoundSnapshot t.taskId) := rfl
  rw [hstep, storeGet_storeSet_self]
  rfl

/-- Claim C9 (code bug): the snapshot dict written by `update` never contains
the key last_update_time, so the sweep condition
`current_time - data.get("last_update_time", 0) > 3600` compares against 0 and
removes every terminal task once the wall clock exceeds 3600 — here a task
whose real last update was 10 time-units before the sweep is removed even
though far less than one hour elapsed. -/
theorem c9_premature_sweep :
    (getTaskProgress c9Complete.2.1 "t").status = some "completed" ∧
    (getTaskProgress c9Complete.2.1 "t").lastUpdateTime = none ∧
    c9Complete.1.lastUpdateTime = 4000 ∧
    storeGet c9Swept.progressStore "t" = none ∧
    ((4010 : ℚ) - 4000 ≤ 3600) := by
  refine ⟨by decide, by decide, by decide, ?_, by norm_num⟩
  have hstatus : c9Complete.2.2.status = some "completed" := by decide
  have hlut : c9Complete.2.2.lastUpdateTime = none := by decide
  have hrm : shouldRemoveTask 4010 c9Complete.2.2 = true := by
    simp only [shouldRemoveTask, hstatus, hlut, Option.getD_none]
    norm_num
  have h1 : c9Complete.2.1.progressStore = [("t", c9Complete.2.2)] := rfl
  have h2 : c9Swept.progressStore =
      List.filter (fun e => !(shouldRemoveTask 4010 e.2)) c9Complete.2.1.progressStore := rfl
  rw [h2, h1, List.filter_cons]
  simp [hrm, storeGet]

/-- Claim C4 amended: the estimate is recomputed (and, for monotone wall time,
non-negative) exactly when the clamped step is strictly between 0 and
total_steps; otherwise `update` keeps the previous in-object value and still
writes it into the snapshot — so a snapshot produced by `complete()` carries
the last computed estimate rather than null, and the estimate is null only
when no earlier update ever computed one. -/
theorem c4_etr_amended (t : ProgressTracker) (reg : Registry) (v : ℤ)
    (status : String) (message : Option String) (now : ℚ)
    (hmono : t.startTime ≤ now) :
    ((0 < min v t.totalSteps ∧ min v t.totalSteps < t.totalSteps) →
      (updateTracker t reg v status message now).2.2.estimatedTimeRemaining =
        some (some (pyRound 2 ((now - t.startTime) / ((min v t.totalSteps : ℤ) : ℚ) *
          ((t.totalSteps : ℚ) - ((min v t.totalSteps : ℤ) : ℚ))))) ∧
      (∀ q : ℚ,
        (updateTracker t reg v status message now).2.2.estimatedTimeRemaining =
          some (some q) → 0 ≤ q)) ∧
    (¬(0 < min v t.totalSteps ∧ min v t.totalSteps < t.totalSteps) →
      (updateTracker t reg v status message now).2.2.estimatedTimeRemaining =
        some (t.estimatedTimeRemaining.map (pyRound 2))) := by
  have key : (updateTracker t reg v status message now).2.2.estimatedTimeRemaining =
      some ((if 0 < min v t.totalSteps ∧ min v t.totalSteps < t.totalSteps then
          some ((now - t.startTime) / ((min v t.totalSteps : ℤ) : ℚ) *
            ((t.totalSteps : ℚ) - ((min v t.totalSteps : ℤ) : ℚ)))
        else t.estimatedTimeRemaining).map (pyRound 2)) := rfl
  constructor
  · intro h
    constructor
    · rw [key, if_pos h]
      rfl
    · intro q hq
      rw [key, if_pos h] at hq
      simp only [Option.map_some'] at hq
      have hval := (Option.some.inj (Option.some.inj hq)).symm
      rw [hval]
      apply pyRound_nonneg
      have h1 : (0 : ℚ) < ((min v t.totalSteps : ℤ) : ℚ) := by exact_mod_cast h.1
      have h2 : ((min v t.totalSteps : ℤ) : ℚ) < (t.totalSteps : ℚ) := by exact_mod_cast h.2
      have h3 : (0 : ℚ) ≤ now - t.startTime := by linarith
      exact mul_nonneg (div_nonneg h3 (le_of_lt h1)) (by linarith)
  · intro h
    rw [key, if_neg h]

theorem c4_witness :
    c4Init.1.startTime ≤ (10 : ℚ) ∧
    (((0 < min (50 : ℤ) c4Init.1.totalSteps ∧
        min (50 : ℤ) c4Init.1.totalSteps < c4Init.1.totalSteps) →
      (updateTracker c4Init.1 c4Init.2 50 "processing" none 10).2.2.estimatedTimeRemaining =
        some (some (pyRound 2 (((10 : ℚ) - c4Init.1.startTime) /
          ((min (50 : ℤ) c4Init.1.totalSteps : ℤ) : ℚ) *
          ((c4Init.1.totalSteps : ℚ) - ((min (50 : ℤ) c4Init.1.totalSteps : ℤ) : ℚ))))) ∧
      (∀ q : ℚ,
        (updateTracker c4Init.1 c4Init.2 50 "processing" none 10).2.2.estimatedTimeRemaining =
          some (some q) → 0 ≤ q)) ∧
    (¬(0 < min (50 : ℤ) c4Init.1.totalSteps ∧
        min (50 : ℤ) c4Init.1.totalSteps < c4Init.1.totalSteps) →
      (updateTracker c4Init.1 c4Init.2 50 "processing" none 10).2.2.estimatedTimeRemaining =
        some (c4Init.1.estimatedTimeRemaining.map (pyRound 2)))) :=
  ⟨by rw [show c4Init.1.startTime = (0 : ℚ) from rfl]; norm_num,
    c4_etr_amended c4Init.1 c4Init.2 50 "processing" none 10
      (by rw [show c4Init.1.startTime = (0 : ℚ) from rfl]; norm_num)⟩

/-- Claim C4 counterexample: after `update(50)` at time 10 (estimate 10) a
`complete()` at time 20 stores current_step = total_steps = 100 yet the
snapshot still carries estimated_time_remaining = 10, not null. -/
theorem c4_counterexample :
    c4Run2.2.2.currentStep = some 100 ∧
    c4Run2.2.2.totalSteps = some 100 ∧
    c4Run2.2.2.estimatedTimeRemaining = some (some 10) ∧
    c4Run2.2.2.estimatedTimeRemaining ≠ some none := by
  have h1 : c4Run1.1.estimatedTimeRemaining =
      (if 0 < min (50 : ℤ) 100 ∧ min (50 : ℤ) 100 < (100 : ℤ) then
        some (((10 : ℚ) - 0) / ((min (50 : ℤ) 100 : ℤ) : ℚ) *
          (((100 : ℤ) : ℚ) - ((min (50 : ℤ) 100 : ℤ) : ℚ)))
      else none) := rfl
  have h2 : c4Run1.1.estimatedTimeRemaining = some 10 := by
    rw [h1]
    norm_num
  have h3 : c4Run2.2.2.estimatedTimeRemaining =
      some ((if 0 < min (100 : ℤ) 100 ∧ min (100 : ℤ) 100 < (100 : ℤ) then
          some (((20 : ℚ) - 0) / ((min (100 : ℤ) 100 : ℤ) : ℚ) *
            (((100 : ℤ) : ℚ) - ((min (100 : ℤ) 100 : ℤ) : ℚ)))
        else c4Run1.1.estimatedTimeRemaining).map (pyRound 2)) := rfl
  have hetr : c4Run2.2.2.estimatedTimeRemaining = some (some 10) := by
    rw [h3, if_neg (by norm_num), h2]
    simp only [Option.map_some']
    norm_num [pyRound, roundHalfEven]
  refine ⟨by decide, by decide, hetr, ?_⟩
  rw [hetr]
  simp

/-- Claim C1: for every page sequence, every completion order of the worker
pool (a permutation of the indexed pages) and both branch selections, a page
processing call returns the length-N sequence whose slot i holds exactly the
per-page operation applied to (i, pages(i)) — for text and structured
extraction alike — so the parallel path produces content identical to
sequential index-order processing.  (Per-page operations are assumed to
succeed; a raising page is claim C6.) -/
theorem c1_page_order_preserved (pages : List Page) (order : List (ℕ × Page))
    (fastMode : Bool) (hperm : order.Perm pages.enum)
    (hok : ∀ p ∈ pages, isOkE p.extractText = true) :
    extractTextContent pages fastMode order =
      Except.ok (pages.enum.map (fun j => some (textPageOf j))) ∧
    extractStructuredContent pages fastMode order =
      Except.ok (pages.enum.map (fun j => some (structuredPageOf j))) :=
  ⟨extractTextContent_ok pages fastMode order hperm hok,
    extractStructuredContent_ok pages fastMode order hperm hok⟩

theorem c1_witness :
    (c1Order.Perm c1Pages.enum ∧ ∀ p ∈ c1Pages, isOkE p.extractText = true) ∧
    (extractTextContent c1Pages true c1Order =
        Except.ok (c1Pages.enum.map (fun j => some (textPageOf j))) ∧
      extractStructuredContent c1Pages true c1Order =
        Except.ok (c1Pages.enum.map (fun j => some (structuredPageOf j)))) :=
  ⟨⟨by decide, by decide⟩,
    c1_page_order_preserved c1Pages c1Order true (by decide) (by decide)⟩

/-- Claim C6 counterexample: with one succeeding page and one raising page,
text extraction fails outright (sequential and parallel branch alike, and the
structured path as well) instead of returning a full-length result with an
empty substitute at the failing index. -/
theorem c6_counterexample :
    isOkE pageA.extractText = true ∧
    isOkE pageRaise.extractText = false ∧
    extractTextContent c6Pages false c6Order = Except.error "boom" ∧
    extractTextContent c6Pages true c6Order = Except.error "boom" ∧
    extractStructuredContent c6Pages true c6Order = Except.error "boom" := by
  decide

/-- Claim C6 amended: only OCR has per-unit failure substitution — a failing
image yields an empty string inside `_process_image` and the OCR batch always
comes back full length and index-aligned; in text and structured extraction a
raising per-page operation is not caught by the page loop, so the whole call
fails (the error is then converted to an error result by `extract_content`);
only a `None`-ish text return is substituted by the empty string there. -/
theorem c6_failure_semantics_amended
    (images : List OCRImage) (preprocess : Bool) (iorder : List (ℕ × OCRImage))
    (pages : List Page) (fastT fastS : Bool) (porder : List (ℕ × Page))
    (h1 : iorder.Perm images.enum)
    (h2 : porder.Perm pages.enum)
    (h3 : ∃ p ∈ pages, isOkE p.extractText = false) :
    ocrBatch images preprocess iorder =
      images.enum.map (fun j =>
        some ({ page := j.1 + 1, content := processImage j.2 preprocess } : TextPage)) ∧
    (∃ e, extractTextContent pages fastT porder = Except.error e) ∧
    (∃ e, extractStructuredContent pages fastS porder = Except.error e) := by
  refine ⟨?_, extractTextContent_error pages fastT porder h2 h3,
    extractStructuredContent_error pages fastS porder h2 h3⟩
  unfold ocrBatch
  exact fillSlots_perm_enum _ images iorder h1

theorem c6_witness :
    (c6ImgOrder.Perm c6Images.enum ∧ c6Order.Perm c6Pages.enum ∧
      (∃ p ∈ c6Pages, isOkE p.extractText = false)) ∧
    (ocrBatch c6Images true c6ImgOrder =
        c6Images.enum.map (fun j =>
          some ({ page := j.1 + 1, content := processImage j.2 true } : TextPage)) ∧
      (∃ e, extractTextContent c6Pages true c6Order = Except.error e) ∧
      (∃ e, extractStructuredContent c6Pages false c6Order = Except.error e)) :=
  ⟨⟨by decide, by decide, by decide⟩,
    c6_failure_semantics_amended c6Images true c6ImgOrder c6Pages true false c6Order
      (by decide) (by decide) (by decide)⟩

end PdfApi
